import Mathlib

/-
Verification of the search-and-summary orchestration core of the
persona-pilot-service repository (src/services/elastic_service.py and
src/services/data_service.py), shallowly embedded in Lean 4.

Conventions of the embedding:
* Python strings are Lean `String`; Python `None`-able values are `Option`.
* Relevance scores are exact rationals (`Rat`); the only score operation the
  code performs is the comparison `_score >= 14`, which has identical meaning
  for rationals and for the concrete score values involved.
* Python exceptions become an explicit `Err` error type threaded through
  `Except`; raising is `Except.error`, `try`/`except` blocks become explicit
  matches on the result.
* The Elasticsearch client is modelled as an explicit store (`ES`) of indices
  holding id-addressed summary-cache documents plus a count of documents not
  individually modelled; ranked search results and all AI collaborators
  (embeddings, keyword extraction, query-equivalence analysis, summarization)
  are oracles supplied through an `Env` record, since their outputs are not
  computed by this codebase.
-/

/-- Python regex word-character class `[a-zA-Z0-9_]` used by the `re.sub`
calls in elastic_service.py (Lean's `Char.isAlphanum` is exactly ASCII
`[a-zA-Z0-9]`). -/
def isWordChar (c : Char) : Bool := c.isAlphanum || c == '_'

/-- Python `re.sub(r'[^a-zA-Z0-9_]', '', s)`: drop every character outside
`[a-zA-Z0-9_]` (elastic_service.py line 398). -/
def keepWordChars (s : String) : String := String.mk (s.data.filter isWordChar)

/-- Python `re.sub(r'[^a-zA-Z0-9_ ]', '', s)`: like `keepWordChars` but the
space character is also kept (elastic_service.py line 328,
`ElasticService.get_query_vector`). -/
def keepWordCharsAndSpace (s : String) : String :=
  String.mk (s.data.filter (fun c => isWordChar c || c == ' '))

/-- Python `str.split()` with no arguments, on the character list: split on
runs of whitespace, producing no empty pieces; the accumulator holds the
current token reversed. -/
def pySplitAux : List Char → List Char → List String
  | [], acc => if acc.isEmpty then [] else [String.mk acc.reverse]
  | c :: rest, acc =>
      if c.isWhitespace then
        if acc.isEmpty then pySplitAux rest []
        else String.mk acc.reverse :: pySplitAux rest []
      else pySplitAux rest (c :: acc)

/-- Python `str.split()` with no arguments: split on runs of whitespace and
drop empty pieces. -/
def pySplit (s : String) : List String := pySplitAux s.data []

/-- Python `str.startswith(p)`. -/
def pyStartsWith (s p : String) : Bool := p.data.isPrefixOf s.data

/-- Python `s[1:]`: drop the first character. -/
def pyDrop1 (s : String) : String := String.mk (s.data.drop 1)

/-- Python `str.strip()` with no arguments: remove leading and trailing
whitespace. -/
def pyStrip (s : String) : String :=
  String.mk (((s.data.dropWhile Char.isWhitespace).reverse.dropWhile
    Char.isWhitespace).reverse)

/-- Python `str.lower()` (over the alphabets exercised here). -/
def pyLower (s : String) : String := String.mk (s.data.map Char.toLower)

/-- ElasticService.extract_hashtags (elastic_service.py lines 393-400):
split the query on whitespace, keep tokens starting with `#`, drop the
leading `#`, then strip every character outside `[a-zA-Z0-9_]` from each
kept token.  Note the code performs no removal of tokens that become empty
after stripping. -/
def extract_hashtags (query : String) : List String :=
  let words := pySplit query
  let hashtags := (words.filter (fun w => pyStartsWith w "#")).map (fun w => pyDrop1 w)
  hashtags.map keepWordChars

/-- Scanner for Python `re.search(r'\byes\b', s, re.IGNORECASE)` applied to an
already-lowercased character list; the first argument is the character
immediately before the current position (`none` at the start of the string).
A match needs the three characters `y`,`e`,`s` with a non-word character (or
string edge) on both sides. -/
def hasYesAux : Option Char → List Char → Bool
  | prev, 'y' :: 'e' :: 's' :: rest =>
      ((match prev with | none => true | some p => !isWordChar p) &&
       (match rest with | [] => true | c :: _ => !isWordChar c))
      || hasYesAux (some 'y') ('e' :: 's' :: rest)
  | _, c :: rest => hasYesAux (some c) rest
  | _, [] => false

/-- Python `bool(re.search(r'\byes\b', s, re.IGNORECASE))` (data_service.py
line 237): the string contains the standalone word "yes", case-insensitively
(`\b` is a transition between `[a-zA-Z0-9_]` and anything else or a string
edge; lowercasing first is equivalent to the IGNORECASE flag because case
mapping preserves word-character status). -/
def hasYesWord (s : String) : Bool := hasYesAux none (pyLower s).data

/-- Error taxonomy of the embedded code.  `insight` is InsightException
(status_code, message) — its class body is not under src/ (only its raise
sites and handlers are), and is modelled from the spec's error taxonomy and
its call sites as a carrier of an HTTP status code and a message, identical
in shape to AppException.  `app` is AppException; `notFoundError` is the
elasticsearch client's NotFoundError; `keyError`/`indexError` are the Python
builtin exceptions raised by `d[k]` on a missing key and `l[0]` on an empty
list; `other` stands for any other exception propagating from a collaborator. -/
inductive Err
  | insight (status_code : Int) (message : String)
  | app (status_code : Int) (message : String)
  | notFoundError (message : String)
  | keyError (key : String)
  | indexError
  | other (message : String)
deriving DecidableEq

/-- Python `str(e)` for the exceptions of `Err`, used where the code
interpolates a caught exception into a message (data_service.py line 249). -/
def errStr : Err → String
  | .insight c m => "(" ++ toString c ++ ", " ++ m ++ ")"
  | .app c m => "(" ++ toString c ++ ", " ++ m ++ ")"
  | .notFoundError m => m
  | .keyError k => "\x27" ++ k ++ "\x27"
  | .indexError => "list index out of range"
  | .other m => m

/-- Failure modes of a raw Elasticsearch search call, as distinguished by the
`except NotFoundError` / `except Exception` handlers in data_service.py. -/
inductive EsError
  | notFound (message : String)
  | other (message : String)
deriving DecidableEq

/-- One ranked hit as returned by `async_es.search` and repackaged by
ElasticService.get_documents_from_search_insights: document id, relevance
score, source document, optional highlight snippets. -/
structure Hit (σ : Type) where
  hitId : String
  score : Rat
  source : σ
  highlight : Option (List String)
deriving DecidableEq

/-- The source fields of an insights-index document that this core reads
(the whitelist of DataService.get_insights_summary); a field is `none` when
absent from the document dict. -/
structure InsightSource where
  title : Option String
  description : Option String
  authors : Option String
  regions : Option (List String)
deriving DecidableEq

/-- An AI-summary-cache document (ElasticService.new_ai_summary_cache_document,
elastic_service.py lines 627-660) as read back from the store; reads exclude
`topic_vector` (`source_excludes` in get_document_by_id), so the vector is not
part of the transported document. -/
structure CacheDoc where
  key : Nat
  topic : String
  user_query : String
  ai_summary_cache : String
  regions : Option (List String)
  total_likes : Int
  total_dislikes : Int
  liked_by_cdsids : List String
  disliked_by_cdsids : List String
  last_liked_by : String
  last_disliked_by : String
  updated_by_cdsid : Option String
  updated_datetime_utc : String
deriving DecidableEq

/-- The trimmed per-document summarization input of
DataService.get_insights_summary: only title, description, authors, regions,
each present iff present in the source document. -/
structure SummDoc where
  title : Option String
  description : Option String
  authors : Option String
  regions : Option (List String)
deriving DecidableEq

/-- The `{"summary": document}` dict produced by cache_ai_summaries and by the
cache-reuse branch of get_ai_summary_from_cache. -/
structure AiSummaryCache where
  summary : CacheDoc
deriving DecidableEq

/-- InsightsSearchRequest (models/insights_search_request.py).  `cdsid` and
`ai_summary_cache_id` may be `None` at runtime, hence `Option`. -/
structure SearchRequest where
  index : String
  cdsid : Option String
  ai_summary_cache_id : Option String
  regions : Option (List String)
  categories : List String
  authors : List String
  sorted_by : String
  logged_in_user_name : String
  query : String
  page_no : Int
  page_size : Int
deriving DecidableEq

/-- Python truthiness of an optional string (`if key:`): true iff present and
non-empty. -/
def pyTruthyStr : Option String → Bool
  | none => false
  | some s => s ≠ ""

/-- Python truthiness of an optional list (`if regions:`): true iff present
and non-empty. -/
def pyTruthyList : Option (List String) → Bool
  | none => false
  | some l => !l.isEmpty

/-- The condition `_request.regions is None or _request.regions == []` of
data_service.py line 230. -/
def regionsNoneOrEmpty : Option (List String) → Bool
  | none => true
  | some l => l.isEmpty

/-- One exact-match `terms` restriction of ElasticService.es_cosine_filters_query. -/
inductive MustClause
  | regions (l : List String)
  | classifications (l : List String)
  | authors_cdsid (l : List String)
deriving DecidableEq

/-- The insights hybrid query built by ElasticService.get_es_query, with the
constant skeleton (best-fields multi_match boost 10, two knn clauses with
candidate pool 5, permission filter, highlight and vector excludes) kept
implicit and every request-dependent component explicit. -/
structure EsQuery where
  query : String
  query_vector : List Int
  hash_tags : List String
  cdsid : Option String
  must_filters : List MustClause
  size : Int
  from_param : Int
  sort : List (String × String)
deriving DecidableEq

/-- The summary-cache lookup query built by ElasticService.es_search_query:
match_phrase_prefix on topic plus knn on topic_vector, with an optional
regions terms restriction added only when a regions filter is truthy. -/
structure CacheQuery where
  topic_query : String
  query_vector : List Int
  num_candidates : Nat
  regions_must : Option (List String)
deriving DecidableEq

/-- The query sent to `async_es.search` by ElasticService.elastic_search:
either the insights hybrid query or the summary-cache lookup query, chosen by
the index-name branch at elastic_service.py lines 110-113. -/
inductive EsQueryT
  | insights (q : EsQuery)
  | cache (q : CacheQuery)
deriving DecidableEq

/-- One Elasticsearch index in the store model: the id-addressed
summary-cache documents this core reads and writes, plus a count of further
documents (insights records) that are never read individually by the
functions under verification. -/
structure ESIndex where
  docs : List (String × CacheDoc)
  extraCount : Nat
deriving DecidableEq

/-- The Elasticsearch store: named indices. -/
structure ES where
  indices : List (String × ESIndex)
deriving DecidableEq

/-- The collaborator oracles and ambient configuration of a single request:
embedding provider, LLM keyword extraction / query-equivalence / summarizer
(a summarizer failure models the exception swallowed at data_service.py line
290), the current UTC timestamp string, the wall-clock key minted by
`int(time.time() * 1000)`, `properties.env`, and the ranked-search oracles for
insight hits and cache hits (real relevance ranking is not computed by this
codebase). -/
structure Env where
  embed : String → List Int
  extract_keywords : String → String
  analyse_user_queries : String → String → String
  summarize : String → List SummDoc → Except String String
  now : String
  newKey : Nat
  propertiesEnv : String
  searchI : String → EsQueryT → Except EsError (List (Hit InsightSource) × Nat)
  searchC : String → EsQueryT → Except EsError (List (Hit CacheDoc) × Nat)

/-- Look up an index by name in the store. -/
def lookupIndex (es : ES) (name : String) : Option ESIndex :=
  (es.indices.find? (fun p => p.1 == name)).map (fun p => p.2)

/-- ElasticService.check_index_exists. -/
def check_index_exists (es : ES) (index_name : String) : Bool :=
  (lookupIndex es index_name).isSome

/-- ElasticService.get_total_count: `async_es.count` over one index (0 for a
missing index never reaches the code paths below, which check existence
first). -/
def es_count (es : ES) (index_name : String) : Nat :=
  match lookupIndex es index_name with
  | some idx => idx.docs.length + idx.extraCount
  | none => 0

/-- Set (insert-or-overwrite) a document under an id in an index's document
list, preserving the position of an existing entry, as Elasticsearch does for
`index`/`update` with a given id. -/
def setDoc : List (String × CacheDoc) → String → CacheDoc → List (String × CacheDoc)
  | [], k, d => [(k, d)]
  | (k', d') :: rest, k, d =>
      if k' == k then (k, d) :: rest else (k', d') :: setDoc rest k d

/-- Write a document under (index, id), creating the index entry if absent
(Elasticsearch auto-creates on write; the callers below create it explicitly
first anyway).  Models both `async_es.index(index, id, document)` and
`async_es.update(index, id, {"doc": document, "doc_as_upsert": True})`: the
code always supplies every transported field of the document, so the partial
`doc` merge coincides with full replacement. -/
def es_write (es : ES) (index_name k : String) (d : CacheDoc) : ES :=
  ES.mk (go es.indices)
where
  go : List (String × ESIndex) → List (String × ESIndex)
    | [] => [(index_name, ESIndex.mk [(k, d)] 0)]
    | (n, idx) :: rest =>
        if n == index_name then (n, ESIndex.mk (setDoc idx.docs k d) idx.extraCount) :: rest
        else (n, idx) :: go rest

/-- Read a document by (index, id): `async_es.get`, `none` when the document
(or the index) is absent, which the client surfaces as NotFoundError. -/
def es_get (es : ES) (index_name k : String) : Option CacheDoc :=
  (lookupIndex es index_name).bind (fun idx => (idx.docs.find? (fun p => p.1 == k)).map (fun p => p.2))

/-- ElasticService.create_index_if_not_exists (the mapping body passed in the
source only fixes the schema and is not observable in this model). -/
def create_index_if_not_exists (es : ES) (index_name : String) : ES :=
  if check_index_exists es index_name then es
  else ES.mk (es.indices ++ [(index_name, ESIndex.mk [] 0)])

/-- ElasticService.raise_error_if_index_not_exists: InsightException 404 when
the index is absent. -/
def raise_error_if_index_not_exists (es : ES) (index_name : String) : Except Err Unit :=
  if !check_index_exists es index_name then
    Except.error (Err.insight 404 ("Index " ++ index_name ++ " does not exist."))
  else
    Except.ok ()

theorem setDoc_find_self (docs : List (String × CacheDoc)) (k : String) (d : CacheDoc) :
    (setDoc docs k d).find? (fun p => p.1 == k) = some (k, d) := by
  induction docs with
  | nil => simp [setDoc, List.find?]
  | cons hd tl ih =>
      obtain ⟨k', d'⟩ := hd
      by_cases h : k' = k
      · simp [setDoc, h, List.find?]
      · have hbeq : (k' == k) = false := by simp [h]
        simp [setDoc, hbeq, List.find?, ih]

theorem es_get_es_write (es : ES) (index_name k : String) (d : CacheDoc) :
    es_get (es_write es index_name k d) index_name k = some d := by
  unfold es_get es_write lookupIndex
  induction es.indices with
  | nil => simp [es_write.go, List.find?, setDoc_find_self]
  | cons hd tl ih =>
      obtain ⟨n, idx⟩ := hd
      by_cases h : n = index_name
      · simp [es_write.go, h, List.find?, setDoc_find_self]
      · have hbeq : (n == index_name) = false := by simp [h]
        simp only [es_write.go, hbeq, if_false]
        simpa [List.find?, hbeq] using ih

theorem check_index_exists_es_write (es : ES) (index_name k : String) (d : CacheDoc) :
    check_index_exists (es_write es index_name k d) index_name = true := by
  have h := es_get_es_write es index_name k d
  unfold es_get at h
  unfold check_index_exists
  cases hl : lookupIndex (es_write es index_name k d) index_name with
  | none => rw [hl] at h; simp at h
  | some idx => simp

/-- Name of the summary-cache index family, EsIndexPrefix.ai_summary_cache.name. -/
def ai_summary_cache_name : String := "ai_summary_cache"

/-- ElasticService.get_query_vector: strip every character outside
`[a-zA-Z0-9_ ]` from the query, then embed the cleaned text; returns the
cleaned text together with its vector. -/
def get_query_vector (env : Env) (query : String) : String × List Int :=
  let query := keepWordCharsAndSpace query
  (query, env.embed query)

/-- ElasticService.sorted_by: always `_score` descending first, then the
`updated_datetime` tiebreaker selected by the request's SortedBy value
(enum names from constants/sorted_by.py). -/
def sorted_by_fn (_request : SearchRequest) : List (String × String) :=
  let s := [("_score", "desc")]
  let s := if _request.sorted_by = "lastUpdatedAsc" then s ++ [("updated_datetime", "asc")] else s
  if _request.sorted_by = "lastUpdatedDesc" then s ++ [("updated_datetime", "desc")] else s

/-- ElasticService.es_cosine_filters_query: one `terms` must-clause per truthy
filter, in source order regions, classifications, authors. -/
def es_cosine_filters_query (_request : SearchRequest) : List MustClause :=
  (if pyTruthyList _request.regions then [MustClause.regions (_request.regions.getD [])] else []) ++
  (if !_request.categories.isEmpty then [MustClause.classifications _request.categories] else []) ++
  (if !_request.authors.isEmpty then [MustClause.authors_cdsid _request.authors] else [])

/-- ElasticService.get_es_query (elastic_service.py lines 334-386): extract
hashtags from the raw query, clean and embed it, compute
`from = (page_no - 1) * page_size`; reject with InsightException 400 when
`from + page_size` exceeds the max result window 10000, then with
InsightException 404 when `from >= total_docs`; otherwise build the hybrid
query with `size = min(page_size, total_docs - from)`.  The knn/permission
clause skeleton is constant; the must-filters are attached only when some
filter is truthy (es_knn_query lines 568-570). -/
def get_es_query (env : Env) (_request : SearchRequest) (total_docs : Int) :
    Except Err EsQuery :=
  let cdsid := _request.cdsid
  let query := _request.query
  let hash_tags := extract_hashtags query
  let page_number := _request.page_no
  let page_size := _request.page_size
  let qv := get_query_vector env query
  let max_result_window : Int := 10000
  let from_param := (page_number - 1) * page_size
  if max_result_window < from_param + page_size then
    Except.error (Err.insight 400
      "Requested range exceeds the maximum allowed. Please adjust the page size.")
  else if total_docs ≤ from_param then
    Except.error (Err.insight 404 "No more documents to fetch")
  else
    Except.ok
      { query := qv.1
        query_vector := qv.2
        hash_tags := hash_tags
        cdsid := cdsid
        must_filters :=
          if pyTruthyList _request.regions || !_request.categories.isEmpty
              || !_request.authors.isEmpty then
            es_cosine_filters_query _request
          else []
        size := min page_size (total_docs - from_param)
        from_param := from_param
        sort := sorted_by_fn _request }

/-- ElasticService.es_search_query: summary-cache lookup query with candidate
pool size as given; the regions must-clause is attached only when `regions`
is truthy. -/
def es_search_query (query : String) (query_vector : List Int) (num_candidates : Nat)
    (regions : Option (List String)) : CacheQuery :=
  { topic_query := query
    query_vector := query_vector
    num_candidates := num_candidates
    regions_must := if pyTruthyList regions then some (regions.getD []) else none }

/-- ElasticService.get_ai_summary_cache_query: clean and embed the query, then
build the cache lookup query with 5 candidates. -/
def get_ai_summary_cache_query (env : Env) (_request : SearchRequest) : CacheQuery :=
  let qv := get_query_vector env _request.query
  es_search_query qv.1 qv.2 5 _request.regions

/-- ElasticService.elastic_search (elastic_service.py lines 106-124): require
the index to exist (404 InsightException), return the empty dict (`none`) when
the index holds 0 documents, otherwise build the query — the cache query when
the index name starts with the ai_summary_cache family name, the insights
hybrid query (which may itself fail) otherwise — run the search and return
hits with the pre-cutoff total.  Generic over the hit-source shape because the
two index families store differently-shaped documents; `searchFn` is the
corresponding oracle from `Env`. -/
def elastic_search {σ : Type} (env : Env)
    (searchFn : String → EsQueryT → Except EsError (List (Hit σ) × Nat))
    (es : ES) (_request : SearchRequest) :
    Except Err (Option (List (Hit σ) × Nat)) := do
  let _ ← raise_error_if_index_not_exists es _request.index
  let total_docs := es_count es _request.index
  if 0 < total_docs then
    let es_query ←
      if pyStartsWith _request.index ai_summary_cache_name then
        Except.ok (EsQueryT.cache (get_ai_summary_cache_query env _request))
      else do
        let q ← get_es_query env _request (Int.ofNat total_docs)
        Except.ok (EsQueryT.insights q)
    match searchFn _request.index es_query with
    | Except.ok (hits, total_hits) => Except.ok (some (hits, total_hits))
    | Except.error (EsError.notFound m) => Except.error (Err.notFoundError m)
    | Except.error (EsError.other m) => Except.error (Err.other m)
  else
    Except.ok none

/-- ElasticService.get_documents_from_search_insights: propagate the empty
dict, otherwise repackage each hit as `{_id, _score, _source[, highlight]}`
(an identity on the transported fields) together with the pre-cutoff total. -/
def get_documents_from_search_insights {σ : Type} (env : Env)
    (searchFn : String → EsQueryT → Except EsError (List (Hit σ) × Nat))
    (es : ES) (_request : SearchRequest) :
    Except Err (Option (List (Hit σ) × Nat)) := do
  let result ← elastic_search env searchFn es _request
  match result with
  | none => Except.ok none
  | some (hits, total_search_count) =>
      let results := hits.map (fun hit =>
        { hitId := hit.hitId, score := hit.score, source := hit.source,
          highlight := hit.highlight : Hit σ })
      Except.ok (some (results, total_search_count))

/-- ElasticService.get_document_by_id: 404 InsightException when the index is
absent, NotFoundError when the document is absent, else the document source
(vector excluded by `source_excludes`, already absent from `CacheDoc`). -/
def get_document_by_id (es : ES) (index_name document_id : String) :
    Except Err CacheDoc := do
  let _ ← raise_error_if_index_not_exists es index_name
  match es_get es index_name document_id with
  | some d => Except.ok d
  | none => Except.error (Err.notFoundError document_id)

/-- The `like` branch of ElasticService.update_summary_cache (lines 205-215),
statement by statement: if the reactor id is not None and not yet in
`liked_by_cdsids`, increment `total_likes` and append it; if it is not None
and in `disliked_by_cdsids`, decrement `total_dislikes` and remove its first
occurrence; if the logged-in name equals (stripped, lowercased) the recorded
`last_disliked_by`, recompute that field from the (already updated) disliked
list's last element or clear it; finally set `last_liked_by` to the
logged-in name. -/
def applyLike (document : CacheDoc) (cdsid : Option String)
    (logged_in_user_name : String) : CacheDoc :=
  let document :=
    match cdsid with
    | some c =>
        if !document.liked_by_cdsids.contains c then
          { document with total_likes := document.total_likes + 1
                          liked_by_cdsids := document.liked_by_cdsids ++ [c] }
        else document
    | none => document
  let document :=
    match cdsid with
    | some c =>
        if document.disliked_by_cdsids.contains c then
          { document with total_dislikes := document.total_dislikes - 1
                          disliked_by_cdsids := document.disliked_by_cdsids.erase c }
        else document
    | none => document
  let document :=
    if pyLower (pyStrip logged_in_user_name) = pyLower (pyStrip document.last_disliked_by) then
      { document with last_disliked_by := (document.disliked_by_cdsids.getLast?).getD "" }
    else document
  { document with last_liked_by := logged_in_user_name }

/-- The `dislike` branch of ElasticService.update_summary_cache (lines
216-225), the exact mirror of `applyLike`. -/
def applyDislike (document : CacheDoc) (cdsid : Option String)
    (logged_in_user_name : String) : CacheDoc :=
  let document :=
    match cdsid with
    | some c =>
        if !document.disliked_by_cdsids.contains c then
          { document with total_dislikes := document.total_dislikes + 1
                          disliked_by_cdsids := document.disliked_by_cdsids ++ [c] }
        else document
    | none => document
  let document :=
    match cdsid with
    | some c =>
        if document.liked_by_cdsids.contains c then
          { document with total_likes := document.total_likes - 1
                          liked_by_cdsids := document.liked_by_cdsids.erase c }
        else document
    | none => document
  let document :=
    if pyLower (pyStrip logged_in_user_name) = pyLower (pyStrip document.last_liked_by) then
      { document with last_liked_by := (document.liked_by_cdsids.getLast?).getD "" }
    else document
  { document with last_disliked_by := logged_in_user_name }

/-- The `reload` branch of ElasticService.update_summary_cache (lines
226-232): zero both counters, empty both membership lists, clear both
last-actor fields. -/
def applyReload (document : CacheDoc) : CacheDoc :=
  { document with total_likes := 0
                  total_dislikes := 0
                  liked_by_cdsids := []
                  disliked_by_cdsids := []
                  last_liked_by := ""
                  last_disliked_by := "" }

/-- ElasticService.update_summary_cache (elastic_service.py lines 203-240):
dispatch on the reaction name ("like"/"dislike"/"reload" are
SummaryReactions member names; anything else is InsightException 400 with no
state change), stamp `updated_by_cdsid` and `updated_datetime_utc`, persist
via upsert, then re-read and return the persisted document source together
with the updated store. -/
def update_summary_cache (env : Env) (es : ES) (key index : String)
    (document : CacheDoc) (user_reaction : String) (cdsid : Option String)
    (logged_in_user_name : String) : Except Err (CacheDoc × ES) := do
  let document ←
    if user_reaction = "like" then
      Except.ok (applyLike document cdsid logged_in_user_name)
    else if user_reaction = "dislike" then
      Except.ok (applyDislike document cdsid logged_in_user_name)
    else if user_reaction = "reload" then
      Except.ok (applyReload document)
    else
      Except.error (Err.insight 400 ("Invalid user reaction " ++ user_reaction ++ "."))
  let document := { document with updated_by_cdsid := cdsid
                                  updated_datetime_utc := env.now }
  let es := es_write es index key document
  let res ← get_document_by_id es index key
  Except.ok (res, es)

/-- ElasticService.new_ai_summary_cache_document: the fresh cache entry; the
topic is rebound to its cleaned form by get_query_vector before storage, the
counters start at zero, the membership lists empty, the last-actor fields
blank. -/
def new_ai_summary_cache_document (env : Env) (key : Nat)
    (topic user_query ai_summary : String) (cdsid : Option String)
    (regions : Option (List String)) : CacheDoc :=
  let tv := get_query_vector env topic
  { key := key
    topic := tv.1
    user_query := user_query
    ai_summary_cache := ai_summary
    regions := regions
    total_likes := 0
    total_dislikes := 0
    liked_by_cdsids := []
    disliked_by_cdsids := []
    last_liked_by := ""
    last_disliked_by := ""
    updated_by_cdsid := cdsid
    updated_datetime_utc := env.now }

/-- ElasticService.cache_ai_summaries (elastic_service.py lines 168-195):
ensure the index exists; with no (falsy) key, mint a wall-clock key and index
a fresh document; with a key, fetch the existing document, overwrite its
summary text and push it through update_summary_cache tagged "reload"; in
both cases finish by re-reading the document by id and returning it wrapped
as `{"summary": source}`. -/
def cache_ai_summaries (env : Env) (es : ES) (key : Option String)
    (topic user_query ai_summary index_name : String) (cdsid : Option String)
    (logged_in_user_name : String) (regions : Option (List String)) :
    Except Err (AiSummaryCache × ES) := do
  let es := create_index_if_not_exists es index_name
  if !pyTruthyStr key then
    let k := toString env.newKey
    let doc := new_ai_summary_cache_document env env.newKey topic user_query
      ai_summary cdsid regions
    let es := es_write es index_name k doc
    let response ← get_document_by_id es index_name k
    Except.ok (AiSummaryCache.mk response, es)
  else
    let k := key.getD ""
    let result ← get_document_by_id es index_name k
    let doc := { result with ai_summary_cache := ai_summary }
    let upd ← update_summary_cache env es k index_name doc "reload" cdsid
      logged_in_user_name
    let es := upd.2
    let response ← get_document_by_id es index_name k
    Except.ok (AiSummaryCache.mk response, es)

/-- The value of the `summary` key of the response of
DataService.search_insights_v2: the empty dict for pages other than the
first, otherwise the cached summary document. -/
inductive SummaryVal
  | emptyDict
  | doc (d : CacheDoc)
deriving DecidableEq

/-- `Insights.to_dict` (models/insights.py): the post-cutoff hit list under
`insights` plus the pre-cutoff total under `total_records`. -/
structure SearchResultsOut where
  insights : List (Hit InsightSource)
  total_records : Nat
deriving DecidableEq

/-- The response of DataService.search_insights_v2. -/
structure ResponseOut where
  summary : SummaryVal
  search_results : SearchResultsOut
deriving DecidableEq

/-- DataService.get_insights_summary: project each of the first 10 search
results onto the `{title, description, authors, regions}` whitelist, ask the
summarizer, and swallow any summarizer failure, leaving the initial empty
summary. -/
def get_insights_summary (env : Env) (query : String)
    (search_results : List (Hit InsightSource)) : String :=
  let insight_documents := search_results.map (fun h => h.source)
  let documents_to_summarize := (insight_documents.take 10).map
    (fun doc => { title := doc.title, description := doc.description,
                  authors := doc.authors, regions := doc.regions : SummDoc })
  match env.summarize query documents_to_summarize with
  | Except.ok s => s
  | Except.error _ => ""

/-- DataService.summarize_and_cache: generate a summary for the (post-cutoff)
search results and store it through cache_ai_summaries under the request's
cache id (minting a key when there is none). -/
def summarize_and_cache (env : Env) (es : ES) (original_query : String)
    (search_results : List (Hit InsightSource)) (_request : SearchRequest) :
    Except Err (AiSummaryCache × ES) :=
  let ai_summary := get_insights_summary env original_query search_results
  cache_ai_summaries env es _request.ai_summary_cache_id _request.query
    original_query ai_summary _request.index _request.cdsid
    _request.logged_in_user_name _request.regions

/-- The `try`/`except NotFoundError`/`except Exception` structure of
DataService.get_ai_summary_from_cache (lines 224-249): a NotFoundError from
the body triggers the regeneration fallback, any other exception is re-raised
wrapped as AppException(500, str(e)). -/
def cacheTryCatch (regen : Unit → Except Err (AiSummaryCache × ES)) :
    Except Err (AiSummaryCache × ES) → Except Err (AiSummaryCache × ES)
  | Except.ok v => Except.ok v
  | Except.error (Err.notFoundError _) => regen ()
  | Except.error e => Except.error (Err.app 500 (errStr e))

/-- DataService.get_ai_summary_from_cache (data_service.py lines 207-250):
if the cache index does not exist, regenerate; otherwise query it by the
effective query (an empty search response regenerates, as does a zero
pre-cutoff total); when the request carries no region filter, restrict the
candidates to entries whose stored regions equal `[]`; take the first
candidate (Python `response['results'][0]`, an IndexError on an empty list),
ask the query-equivalence collaborator, and reuse the candidate's document
exactly when the answer is truthy and contains the standalone word "yes";
otherwise regenerate.  NotFoundError anywhere in the body regenerates; any
other exception surfaces as AppException 500. -/
def get_ai_summary_from_cache (env : Env) (es : ES) (original_query : String)
    (_request : SearchRequest) (search_results : List (Hit InsightSource)) :
    Except Err (AiSummaryCache × ES) :=
  let is_ai_summary_cache_index_exists := check_index_exists es _request.index
  if !is_ai_summary_cache_index_exists then
    summarize_and_cache env es original_query search_results _request
  else
    cacheTryCatch
      (fun _ => summarize_and_cache env es original_query search_results _request)
      (do
        let response ← get_documents_from_search_insights env env.searchC es _request
        match response with
        | none => summarize_and_cache env es original_query search_results _request
        | some (results, total_search_count) =>
            if 0 < total_search_count then
              let results :=
                if regionsNoneOrEmpty _request.regions then
                  results.filter (fun r => r.source.regions == some ([] : List String))
                else results
              match results with
              | [] => Except.error Err.indexError
              | result :: _ =>
                  let doc := result.source
                  let query_cache := doc.user_query
                  let llm_response := env.analyse_user_queries original_query query_cache
                  if llm_response ≠ "" ∧ hasYesWord (pyStrip llm_response) then
                    Except.ok (AiSummaryCache.mk doc, es)
                  else
                    summarize_and_cache env es original_query search_results _request
            else
              summarize_and_cache env es original_query search_results _request)

/-- The fixed "no results" apology of data_service.py lines 180-181. -/
def apologySummary : String :=
  "I\x27m sorry, but there are no search results for your query. If you have any other queries or need assistance with different information, feel free to ask."

/-- DataService.search_insights_v2 (data_service.py lines 133-205): rewrite
the query via keyword extraction when that returns a truthy string; run the
insights search (an empty search response makes the subsequent
`response['results']` subscript raise KeyError); filter the hits by the hard
score cutoff 14; when the pre-cutoff total is positive and the page is 1,
point the request at the environment's summary-cache index and either
regenerate in place (explicit cache id) or consult the cache; when the
pre-cutoff total is zero, cache the fixed apology under the request's
current index; finally return the summary (pages after the first get the
empty dict) together with the post-cutoff list and the pre-cutoff total. -/
def search_insights_v2 (env : Env) (es : ES) (_request : SearchRequest) :
    Except Err (ResponseOut × ES) := do
  let original_query := _request.query
  let keywords_query := env.extract_keywords original_query
  let _request :=
    if keywords_query ≠ "" then { _request with query := keywords_query } else _request
  let response ← get_documents_from_search_insights env env.searchI es _request
  match response with
  | none => Except.error (Err.keyError "results")
  | some (results, total_search_count) =>
      let search_results := results.filter (fun r => decide ((14 : Rat) ≤ r.score))
      let page_no := _request.page_no
      if 0 < total_search_count then
        if page_no = 1 then
          let index_name := ai_summary_cache_name ++ "_" ++ pyLower (pyStrip env.propertiesEnv)
          let _request := { _request with index := index_name }
          let r ←
            if pyTruthyStr _request.ai_summary_cache_id then
              summarize_and_cache env es original_query search_results _request
            else
              get_ai_summary_from_cache env es original_query _request search_results
          Except.ok
            ({ summary := SummaryVal.doc r.1.summary
               search_results := SearchResultsOut.mk search_results total_search_count },
             r.2)
        else
          Except.ok
            ({ summary := SummaryVal.emptyDict
               search_results := SearchResultsOut.mk search_results total_search_count },
             es)
      else
        let summary := apologySummary
        let r ← cache_ai_summaries env es _request.ai_summary_cache_id _request.query
          original_query summary _request.index _request.cdsid
          _request.logged_in_user_name _request.regions
        if page_no = 1 then
          Except.ok
            ({ summary := SummaryVal.doc r.1.summary
               search_results := SearchResultsOut.mk search_results total_search_count },
             r.2)
        else
          Except.ok
            ({ summary := SummaryVal.emptyDict
               search_results := SearchResultsOut.mk search_results total_search_count },
             r.2)

/-- A valid reaction always persists and returns the transformed, stamped
document: the store upsert is followed by a read of the same (index, id), so
the returned source is exactly what was written. -/
theorem update_summary_cache_like_eq (env : Env) (es : ES) (key index : String)
    (doc : CacheDoc) (cdsid : Option String) (name : String) :
    update_summary_cache env es key index doc "like" cdsid name =
      Except.ok
        ({ applyLike doc cdsid name with
             updated_by_cdsid := cdsid
             updated_datetime_utc := env.now },
         es_write es index key
           { applyLike doc cdsid name with
               updated_by_cdsid := cdsid
               updated_datetime_utc := env.now }) := by
  simp [update_summary_cache, get_document_by_id, raise_error_if_index_not_exists,
    check_index_exists_es_write, es_get_es_write, bind, Except.bind]

theorem update_summary_cache_dislike_eq (env : Env) (es : ES) (key index : String)
    (doc : CacheDoc) (cdsid : Option String) (name : String) :
    update_summary_cache env es key index doc "dislike" cdsid name =
      Except.ok
        ({ applyDislike doc cdsid name with
             updated_by_cdsid := cdsid
             updated_datetime_utc := env.now },
         es_write es index key
           { applyDislike doc cdsid name with
               updated_by_cdsid := cdsid
               updated_datetime_utc := env.now }) := by
  simp [update_summary_cache, get_document_by_id, raise_error_if_index_not_exists,
    check_index_exists_es_write, es_get_es_write, bind, Except.bind]

theorem update_summary_cache_reload_eq (env : Env) (es : ES) (key index : String)
    (doc : CacheDoc) (cdsid : Option String) (name : String) :
    update_summary_cache env es key index doc "reload" cdsid name =
      Except.ok
        ({ applyReload doc with
             updated_by_cdsid := cdsid
             updated_datetime_utc := env.now },
         es_write es index key
           { applyReload doc with
               updated_by_cdsid := cdsid
               updated_datetime_utc := env.now }) := by
  simp [update_summary_cache, get_document_by_id, raise_error_if_index_not_exists,
    check_index_exists_es_write, es_get_es_write, bind, Except.bind]

/-- An unrecognized reaction value is rejected with InsightException 400
before any store access. -/
theorem update_summary_cache_invalid (env : Env) (es : ES) (key index : String)
    (doc : CacheDoc) (reaction : String) (cdsid : Option String) (name : String)
    (h1 : reaction ≠ "like") (h2 : reaction ≠ "dislike") (h3 : reaction ≠ "reload") :
    update_summary_cache env es key index doc reaction cdsid name =
      Except.error (Err.insight 400 ("Invalid user reaction " ++ reaction ++ ".")) := by
  simp only [update_summary_cache, if_neg h1, if_neg h2, if_neg h3, bind, Except.bind]
/-- The data-model well-formedness of the two reactor membership sets of a
summary-cache document: each list is duplicate-free (the spec calls them
sets) and no identity is in both at once. -/
def ReactionSetsWF (d : CacheDoc) : Prop :=
  d.liked_by_cdsids.Nodup ∧ d.disliked_by_cdsids.Nodup ∧
    ∀ x, x ∈ d.liked_by_cdsids → x ∉ d.disliked_by_cdsids

/-- A like by a reactor in neither membership list: one new like, dislikes
untouched. -/
theorem applyLike_not_member (doc : CacheDoc) (c name : String)
    (h1 : c ∉ doc.liked_by_cdsids) (h2 : c ∉ doc.disliked_by_cdsids) :
    (applyLike doc (some c) name).total_likes = doc.total_likes + 1 ∧
    (applyLike doc (some c) name).total_dislikes = doc.total_dislikes ∧
    (applyLike doc (some c) name).liked_by_cdsids = doc.liked_by_cdsids ++ [c] ∧
    (applyLike doc (some c) name).disliked_by_cdsids = doc.disliked_by_cdsids := by
  have hc1 : doc.liked_by_cdsids.contains c = false := by simpa using h1
  have hc2 : doc.disliked_by_cdsids.contains c = false := by simpa using h2
  unfold applyLike
  simp only [hc1, hc2, Bool.not_false, if_true, Bool.false_eq_true, if_false]
  split <;> simp

/-- A like by a reactor already in the liked list changes neither counters
nor lists. -/
theorem applyLike_already_member (doc : CacheDoc) (c name : String)
    (h1 : c ∈ doc.liked_by_cdsids) (h2 : c ∉ doc.disliked_by_cdsids) :
    (applyLike doc (some c) name).total_likes = doc.total_likes ∧
    (applyLike doc (some c) name).total_dislikes = doc.total_dislikes ∧
    (applyLike doc (some c) name).liked_by_cdsids = doc.liked_by_cdsids ∧
    (applyLike doc (some c) name).disliked_by_cdsids = doc.disliked_by_cdsids := by
  have hc1 : doc.liked_by_cdsids.contains c = true := by simpa using h1
  have hc2 : doc.disliked_by_cdsids.contains c = false := by simpa using h2
  unfold applyLike
  simp only [hc1, hc2, Bool.not_true, Bool.false_eq_true, if_false]
  split <;> simp

/-- A like by a reactor currently in the disliked list moves them across and
adjusts both counters in the same transition. -/
theorem applyLike_switches (doc : CacheDoc) (c name : String)
    (hwf : ReactionSetsWF doc) (h2 : c ∈ doc.disliked_by_cdsids) :
    (applyLike doc (some c) name).total_likes = doc.total_likes + 1 ∧
    (applyLike doc (some c) name).total_dislikes = doc.total_dislikes - 1 ∧
    (applyLike doc (some c) name).liked_by_cdsids = doc.liked_by_cdsids ++ [c] ∧
    (applyLike doc (some c) name).disliked_by_cdsids = doc.disliked_by_cdsids.erase c ∧
    c ∉ (applyLike doc (some c) name).disliked_by_cdsids := by
  have h1 : c ∉ doc.liked_by_cdsids := fun hmem => hwf.2.2 c hmem h2
  have hc1 : doc.liked_by_cdsids.contains c = false := by simpa using h1
  have hc2 : doc.disliked_by_cdsids.contains c = true := by simpa using h2
  unfold applyLike
  simp only [hc1, hc2, Bool.not_false, if_true]
  refine ?_
  constructor
  · split <;> simp
  constructor
  · split <;> simp
  constructor
  · split <;> simp
  constructor
  · split <;> simp
  · split <;> simp <;> exact hwf.2.1.not_mem_erase

/-- A like with a `None` reactor id touches neither counters nor lists. -/
theorem applyLike_none (doc : CacheDoc) (name : String) :
    (applyLike doc none name).total_likes = doc.total_likes ∧
    (applyLike doc none name).total_dislikes = doc.total_dislikes ∧
    (applyLike doc none name).liked_by_cdsids = doc.liked_by_cdsids ∧
    (applyLike doc none name).disliked_by_cdsids = doc.disliked_by_cdsids := by
  simp only [applyLike]
  split <;> simp

/-- The like transition preserves membership-set well-formedness. -/
theorem applyLike_WF (doc : CacheDoc) (cdsid : Option String) (name : String)
    (hwf : ReactionSetsWF doc) : ReactionSetsWF (applyLike doc cdsid name) := by
  obtain ⟨hn1, hn2, hdisj⟩ := hwf
  cases cdsid with
  | none =>
      obtain ⟨-, -, hl, hd⟩ := applyLike_none doc name
      unfold ReactionSetsWF
      rw [hl, hd]
      exact ⟨hn1, hn2, hdisj⟩
  | some c =>
      by_cases hmemL : c ∈ doc.liked_by_cdsids
      · obtain ⟨-, -, hl, hd⟩ := applyLike_already_member doc c name hmemL (hdisj c hmemL)
        unfold ReactionSetsWF
        rw [hl, hd]
        exact ⟨hn1, hn2, hdisj⟩
      · by_cases hmemD : c ∈ doc.disliked_by_cdsids
        · obtain ⟨-, -, hl, hd, -⟩ := applyLike_switches doc c name ⟨hn1, hn2, hdisj⟩ hmemD
          unfold ReactionSetsWF
          rw [hl, hd]
          refine ⟨by simp [List.nodup_append, hn1, hmemL], hn2.erase c, ?_⟩
          intro x hx hxe
          rcases (by simpa using hx : x ∈ doc.liked_by_cdsids ∨ x = c) with hx' | rfl
          · exact hdisj x hx' (List.mem_of_mem_erase hxe)
          · exact hn2.not_mem_erase hxe
        · obtain ⟨-, -, hl, hd⟩ := applyLike_not_member doc c name hmemL hmemD
          unfold ReactionSetsWF
          rw [hl, hd]
          refine ⟨by simp [List.nodup_append, hn1, hmemL], hn2, ?_⟩
          intro x hx
          rcases (by simpa using hx : x ∈ doc.liked_by_cdsids ∨ x = c) with hx' | rfl
          · exact hdisj x hx'
          · exact hmemD

/-- Mirror of `applyLike_not_member`. -/
theorem applyDislike_not_member (doc : CacheDoc) (c name : String)
    (h1 : c ∉ doc.disliked_by_cdsids) (h2 : c ∉ doc.liked_by_cdsids) :
    (applyDislike doc (some c) name).total_dislikes = doc.total_dislikes + 1 ∧
    (applyDislike doc (some c) name).total_likes = doc.total_likes ∧
    (applyDislike doc (some c) name).disliked_by_cdsids = doc.disliked_by_cdsids ++ [c] ∧
    (applyDislike doc (some c) name).liked_by_cdsids = doc.liked_by_cdsids := by
  have hc1 : doc.disliked_by_cdsids.contains c = false := by simpa using h1
  have hc2 : doc.liked_by_cdsids.contains c = false := by simpa using h2
  unfold applyDislike
  simp only [hc1, hc2, Bool.not_false, if_true, Bool.false_eq_true, if_false]
  split <;> simp

/-- Mirror of `applyLike_already_member`. -/
theorem applyDislike_already_member (doc : CacheDoc) (c name : String)
    (h1 : c ∈ doc.disliked_by_cdsids) (h2 : c ∉ doc.liked_by_cdsids) :
    (applyDislike doc (some c) name).total_dislikes = doc.total_dislikes ∧
    (applyDislike doc (some c) name).total_likes = doc.total_likes ∧
    (applyDislike doc (some c) name).disliked_by_cdsids = doc.disliked_by_cdsids ∧
    (applyDislike doc (some c) name).liked_by_cdsids = doc.liked_by_cdsids := by
  have hc1 : doc.disliked_by_cdsids.contains c = true := by simpa using h1
  have hc2 : doc.liked_by_cdsids.contains c = false := by simpa using h2
  unfold applyDislike
  simp only [hc1, hc2, Bool.not_true, Bool.false_eq_true, if_false]
  split <;> simp

/-- Mirror of `applyLike_switches`. -/
theorem applyDislike_switches (doc : CacheDoc) (c name : String)
    (hwf : ReactionSetsWF doc) (h2 : c ∈ doc.liked_by_cdsids) :
    (applyDislike doc (some c) name).total_dislikes = doc.total_dislikes + 1 ∧
    (applyDislike doc (some c) name).total_likes = doc.total_likes - 1 ∧
    (applyDislike doc (some c) name).disliked_by_cdsids = doc.disliked_by_cdsids ++ [c] ∧
    (applyDislike doc (some c) name).liked_by_cdsids = doc.liked_by_cdsids.erase c ∧
    c ∉ (applyDislike doc (some c) name).liked_by_cdsids := by
  have h1 : c ∉ doc.disliked_by_cdsids := hwf.2.2 c h2
  have hc1 : doc.disliked_by_cdsids.contains c = false := by simpa using h1
  have hc2 : doc.liked_by_cdsids.contains c = true := by simpa using h2
  unfold applyDislike
  simp only [hc1, hc2, Bool.not_false, if_true]
  refine ⟨by split <;> simp, by split <;> simp, by split <;> simp, by split <;> simp, ?_⟩
  split <;> simp <;> exact hwf.1.not_mem_erase

/-- Mirror of `applyLike_none`. -/
theorem applyDislike_none (doc : CacheDoc) (name : String) :
    (applyDislike doc none name).total_likes = doc.total_likes ∧
    (applyDislike doc none name).total_dislikes = doc.total_dislikes ∧
    (applyDislike doc none name).liked_by_cdsids = doc.liked_by_cdsids ∧
    (applyDislike doc none name).disliked_by_cdsids = doc.disliked_by_cdsids := by
  simp only [applyDislike]
  split <;> simp

/-- The dislike transition preserves membership-set well-formedness. -/
theorem applyDislike_WF (doc : CacheDoc) (cdsid : Option String) (name : String)
    (hwf : ReactionSetsWF doc) : ReactionSetsWF (applyDislike doc cdsid name) := by
  obtain ⟨hn1, hn2, hdisj⟩ := hwf
  cases cdsid with
  | none =>
      obtain ⟨-, -, hl, hd⟩ := applyDislike_none doc name
      unfold ReactionSetsWF
      rw [hl, hd]
      exact ⟨hn1, hn2, hdisj⟩
  | some c =>
      by_cases hmemD : c ∈ doc.disliked_by_cdsids
      · have hmemL : c ∉ doc.liked_by_cdsids := fun hL => hdisj c hL hmemD
        obtain ⟨-, -, hd, hl⟩ := applyDislike_already_member doc c name hmemD hmemL
        unfold ReactionSetsWF
        rw [hl, hd]
        exact ⟨hn1, hn2, hdisj⟩
      · by_cases hmemL : c ∈ doc.liked_by_cdsids
        · obtain ⟨-, -, hd, hl, -⟩ := applyDislike_switches doc c name ⟨hn1, hn2, hdisj⟩ hmemL
          unfold ReactionSetsWF
          rw [hl, hd]
          refine ⟨hn1.erase c, by simp [List.nodup_append, hn2, hmemD], ?_⟩
          intro x hx hxd
          rcases (by simpa using hxd : x ∈ doc.disliked_by_cdsids ∨ x = c) with hx' | rfl
          · exact hdisj x (List.mem_of_mem_erase hx) hx'
          · exact hn1.not_mem_erase hx
        · obtain ⟨-, -, hd, hl⟩ := applyDislike_not_member doc c name hmemD hmemL
          unfold ReactionSetsWF
          rw [hl, hd]
          refine ⟨hn1, by simp [List.nodup_append, hn2, hmemD], ?_⟩
          intro x hx hxd
          rcases (by simpa using hxd : x ∈ doc.disliked_by_cdsids ∨ x = c) with hx' | rfl
          · exact hdisj x hx hx'
          · exact hmemL hx

/-- The reload transition trivially preserves membership-set well-formedness. -/
theorem applyReload_WF (doc : CacheDoc) : ReactionSetsWF (applyReload doc) := by
  unfold ReactionSetsWF applyReload
  simp


/-- C6: in every summary-cache document whose reactor membership lists are
duplicate-free and mutually exclusive, every reaction transition of
update_summary_cache preserves that invariant; a like by a reactor currently
in `disliked_by_cdsids` removes them from it and decrements `total_dislikes`
while appending them to `liked_by_cdsids` and incrementing `total_likes` in
the same operation, and dislike behaves symmetrically. -/
theorem C6_reaction_mutual_exclusion (env : Env) (es : ES) (key index : String)
    (doc : CacheDoc) (cdsid : Option String) (name : String)
    (hwf : ReactionSetsWF doc) :
    (∀ (reaction : String) (d : CacheDoc) (es' : ES),
        update_summary_cache env es key index doc reaction cdsid name = Except.ok (d, es') →
        ReactionSetsWF d) ∧
    (∀ c, cdsid = some c → c ∈ doc.disliked_by_cdsids →
        ∃ d : CacheDoc,
          (update_summary_cache env es key index doc "like" cdsid name).map Prod.fst =
            Except.ok d ∧
          d.total_likes = doc.total_likes + 1 ∧
          d.total_dislikes = doc.total_dislikes - 1 ∧
          d.liked_by_cdsids = doc.liked_by_cdsids ++ [c] ∧
          d.disliked_by_cdsids = doc.disliked_by_cdsids.erase c ∧
          c ∈ d.liked_by_cdsids ∧ c ∉ d.disliked_by_cdsids) ∧
    (∀ c, cdsid = some c → c ∈ doc.liked_by_cdsids →
        ∃ d : CacheDoc,
          (update_summary_cache env es key index doc "dislike" cdsid name).map Prod.fst =
            Except.ok d ∧
          d.total_dislikes = doc.total_dislikes + 1 ∧
          d.total_likes = doc.total_likes - 1 ∧
          d.disliked_by_cdsids = doc.disliked_by_cdsids ++ [c] ∧
          d.liked_by_cdsids = doc.liked_by_cdsids.erase c ∧
          c ∈ d.disliked_by_cdsids ∧ c ∉ d.liked_by_cdsids) := by
  refine ⟨?_, ?_, ?_⟩
  · intro reaction d es' h
    by_cases hlike : reaction = "like"
    · subst hlike
      rw [update_summary_cache_like_eq] at h
      simp only [Except.ok.injEq, Prod.mk.injEq] at h
      have hw := applyLike_WF doc cdsid name hwf
      rw [← h.1]
      unfold ReactionSetsWF at hw ⊢
      simpa using hw
    · by_cases hdis : reaction = "dislike"
      · subst hdis
        rw [update_summary_cache_dislike_eq] at h
        simp only [Except.ok.injEq, Prod.mk.injEq] at h
        have hw := applyDislike_WF doc cdsid name hwf
        rw [← h.1]
        unfold ReactionSetsWF at hw ⊢
        simpa using hw
      · by_cases hrel : reaction = "reload"
        · subst hrel
          rw [update_summary_cache_reload_eq] at h
          simp only [Except.ok.injEq, Prod.mk.injEq] at h
          have hw := applyReload_WF doc
          rw [← h.1]
          unfold ReactionSetsWF at hw ⊢
          simpa using hw
        · rw [update_summary_cache_invalid env es key index doc reaction cdsid name
            hlike hdis hrel] at h
          simp at h
  · rintro c rfl hmem
    obtain ⟨hA, hB, hC, hD, hE⟩ := applyLike_switches doc c name hwf hmem
    refine ⟨{ applyLike doc (some c) name with
                updated_by_cdsid := some c
                updated_datetime_utc := env.now },
            by rw [update_summary_cache_like_eq]; rfl, by simpa using hA, by simpa using hB,
            by simpa using hC, by simpa using hD, ?_, by simpa using hE⟩
    show c ∈ (applyLike doc (some c) name).liked_by_cdsids
    rw [hC]
    simp
  · rintro c rfl hmem
    obtain ⟨hA, hB, hC, hD, hE⟩ := applyDislike_switches doc c name hwf hmem
    refine ⟨{ applyDislike doc (some c) name with
                updated_by_cdsid := some c
                updated_datetime_utc := env.now },
            by rw [update_summary_cache_dislike_eq]; rfl, by simpa using hA, by simpa using hB,
            by simpa using hC, by simpa using hD, ?_, by simpa using hE⟩
    show c ∈ (applyDislike doc (some c) name).disliked_by_cdsids
    rw [hC]
    simp

/-- A reference environment with inert collaborator oracles, used to
instantiate hypothesis-bearing theorems at concrete inputs. -/
def envFix : Env :=
  { embed := fun _ => []
    extract_keywords := fun _ => ""
    analyse_user_queries := fun _ _ => ""
    summarize := fun _ _ => Except.ok "generated summary"
    now := "2026-01-01T00:00:00+00:00"
    newKey := 1700000000000
    propertiesEnv := "dev"
    searchI := fun _ _ => Except.ok ([], 0)
    searchC := fun _ _ => Except.ok ([], 0) }

/-- A reference cache document with one like by Y and one dislike by X. -/
def docFix : CacheDoc :=
  { key := 77
    topic := "blue cruise"
    user_query := "what about blue cruise"
    ai_summary_cache := "cached summary"
    regions := some ["NA"]
    total_likes := 1
    total_dislikes := 1
    liked_by_cdsids := ["Y"]
    disliked_by_cdsids := ["X"]
    last_liked_by := "Yan"
    last_disliked_by := "Xavier"
    updated_by_cdsid := some "Y"
    updated_datetime_utc := "2025-12-31T00:00:00+00:00" }

/-- A reference store holding `docFix` under id "77" in a summary-cache index. -/
def esFix : ES := ES.mk [("ai_summary_cache_dev", ESIndex.mk [("77", docFix)] 0)]

theorem C6_reaction_mutual_exclusion_witness :
    ∃ d : CacheDoc,
      (update_summary_cache envFix esFix "77" "ai_summary_cache_dev" docFix "like"
          (some "X") "Xavier").map Prod.fst = Except.ok d ∧
      d.total_likes = docFix.total_likes + 1 ∧
      d.total_dislikes = docFix.total_dislikes - 1 ∧
      d.liked_by_cdsids = docFix.liked_by_cdsids ++ ["X"] ∧
      d.disliked_by_cdsids = docFix.disliked_by_cdsids.erase "X" ∧
      "X" ∈ d.liked_by_cdsids ∧ "X" ∉ d.disliked_by_cdsids :=
  (C6_reaction_mutual_exclusion envFix esFix "77" "ai_summary_cache_dev" docFix
      (some "X") "Xavier"
      ⟨by decide, by decide, by
        intro x hx hx2
        simp only [docFix] at hx hx2
        simp at hx hx2
        subst hx
        exact absurd hx2 (by decide)⟩).2.1 "X" rfl (by decide)

/-- C7: a like by a reactor in neither membership list increments
`total_likes` by exactly 1 and leaves `total_dislikes` unchanged; a second
like by the same identity is idempotent — no further increment and no change
to either membership list. -/
theorem C7_like_increment_and_idempotence (env env2 : Env) (es es2 : ES)
    (key key2 index index2 : String) (doc : CacheDoc) (c name name2 : String)
    (h1 : c ∉ doc.liked_by_cdsids) (h2 : c ∉ doc.disliked_by_cdsids) :
    ∃ d1 : CacheDoc,
      (update_summary_cache env es key index doc "like" (some c) name).map Prod.fst =
        Except.ok d1 ∧
      d1.total_likes = doc.total_likes + 1 ∧
      d1.total_dislikes = doc.total_dislikes ∧
      d1.liked_by_cdsids = doc.liked_by_cdsids ++ [c] ∧
      d1.disliked_by_cdsids = doc.disliked_by_cdsids ∧
      ∃ d2 : CacheDoc,
        (update_summary_cache env2 es2 key2 index2 d1 "like" (some c) name2).map Prod.fst =
          Except.ok d2 ∧
        d2.total_likes = d1.total_likes ∧
        d2.total_dislikes = d1.total_dislikes ∧
        d2.liked_by_cdsids = d1.liked_by_cdsids ∧
        d2.disliked_by_cdsids = d1.disliked_by_cdsids := by
  obtain ⟨hA, hB, hC, hD⟩ := applyLike_not_member doc c name h1 h2
  refine ⟨{ applyLike doc (some c) name with
              updated_by_cdsid := some c
              updated_datetime_utc := env.now },
          by rw [update_summary_cache_like_eq]; rfl, by simpa using hA, by simpa using hB,
          by simpa using hC, by simpa using hD, ?_⟩
  set d1 : CacheDoc := { applyLike doc (some c) name with
              updated_by_cdsid := some c
              updated_datetime_utc := env.now } with hd1
  have hm1 : c ∈ d1.liked_by_cdsids := by
    have : d1.liked_by_cdsids = doc.liked_by_cdsids ++ [c] := by simpa [hd1] using hC
    rw [this]; simp
  have hm2 : c ∉ d1.disliked_by_cdsids := by
    have : d1.disliked_by_cdsids = doc.disliked_by_cdsids := by simpa [hd1] using hD
    rw [this]; exact h2
  obtain ⟨hA2, hB2, hC2, hD2⟩ := applyLike_already_member d1 c name2 hm1 hm2
  exact ⟨{ applyLike d1 (some c) name2 with
             updated_by_cdsid := some c
             updated_datetime_utc := env2.now },
         by rw [update_summary_cache_like_eq]; rfl, by simpa using hA2, by simpa using hB2,
         by simpa using hC2, by simpa using hD2⟩

theorem C7_like_increment_and_idempotence_witness :
    ∃ d1 : CacheDoc,
      (update_summary_cache envFix esFix "77" "ai_summary_cache_dev" docFix "like"
          (some "Z") "Zed").map Prod.fst = Except.ok d1 ∧
      d1.total_likes = docFix.total_likes + 1 ∧
      d1.total_dislikes = docFix.total_dislikes ∧
      d1.liked_by_cdsids = docFix.liked_by_cdsids ++ ["Z"] ∧
      d1.disliked_by_cdsids = docFix.disliked_by_cdsids ∧
      ∃ d2 : CacheDoc,
        (update_summary_cache envFix esFix "77" "ai_summary_cache_dev" d1 "like"
            (some "Z") "Zed").map Prod.fst = Except.ok d2 ∧
        d2.total_likes = d1.total_likes ∧
        d2.total_dislikes = d1.total_dislikes ∧
        d2.liked_by_cdsids = d1.liked_by_cdsids ∧
        d2.disliked_by_cdsids = d1.disliked_by_cdsids :=
  C7_like_increment_and_idempotence envFix envFix esFix esFix "77" "77"
    "ai_summary_cache_dev" "ai_summary_cache_dev" docFix "Z" "Zed" "Zed"
    (by decide) (by decide)

/-- C10: a like or dislike with a `None` reactor id (cdsid is None) leaves
both counters and both membership lists unchanged; the persisted document
differs from the input only in the last-actor fields, `updated_by_cdsid`
(set to None) and `updated_datetime_utc`. -/
theorem C10_none_reactor_frame (env : Env) (es : ES) (key index : String)
    (doc : CacheDoc) (name : String) :
    (update_summary_cache env es key index doc "like" none name).map Prod.fst =
      Except.ok
        { doc with
            last_liked_by := name
            last_disliked_by :=
              if pyLower (pyStrip name) = pyLower (pyStrip doc.last_disliked_by) then
                (doc.disliked_by_cdsids.getLast?).getD ""
              else doc.last_disliked_by
            updated_by_cdsid := none
            updated_datetime_utc := env.now } ∧
    (update_summary_cache env es key index doc "dislike" none name).map Prod.fst =
      Except.ok
        { doc with
            last_disliked_by := name
            last_liked_by :=
              if pyLower (pyStrip name) = pyLower (pyStrip doc.last_liked_by) then
                (doc.liked_by_cdsids.getLast?).getD ""
              else doc.last_liked_by
            updated_by_cdsid := none
            updated_datetime_utc := env.now } := by
  constructor
  · rw [update_summary_cache_like_eq]
    simp only [applyLike, Except.map]
    split <;> simp
  · rw [update_summary_cache_dislike_eq]
    simp only [applyDislike, Except.map]
    split <;> simp

/-- C8: reload unconditionally resets counters, membership lists and
last-actor fields; cache_ai_summaries with an existing key overwrites the
summary text, routes the document through this reload reset before
persisting, and returns the freshly-read persisted document. -/
theorem C8_reload_reset_and_recache (env : Env) (es : ES) (index : String)
    (cdsid : Option String) (name : String) (k : String) (old : CacheDoc)
    (topic uq newSummary : String) (regions : Option (List String))
    (hk : k ≠ "") (hex : check_index_exists es index = true)
    (hold : es_get es index k = some old) :
    (∀ (es₂ : ES) (key₂ index₂ : String) (doc₂ : CacheDoc) (cdsid₂ : Option String)
        (name₂ : String),
      (update_summary_cache env es₂ key₂ index₂ doc₂ "reload" cdsid₂ name₂).map Prod.fst =
        Except.ok
          { doc₂ with
              total_likes := 0
              total_dislikes := 0
              liked_by_cdsids := []
              disliked_by_cdsids := []
              last_liked_by := ""
              last_disliked_by := ""
              updated_by_cdsid := cdsid₂
              updated_datetime_utc := env.now }) ∧
    (∃ es' : ES,
      cache_ai_summaries env es (some k) topic uq newSummary index cdsid name regions =
        Except.ok
          (AiSummaryCache.mk
            { old with
                ai_summary_cache := newSummary
                total_likes := 0
                total_dislikes := 0
                liked_by_cdsids := []
                disliked_by_cdsids := []
                last_liked_by := ""
                last_disliked_by := ""
                updated_by_cdsid := cdsid
                updated_datetime_utc := env.now }, es') ∧
      es_get es' index k =
        some
          { old with
              ai_summary_cache := newSummary
              total_likes := 0
              total_dislikes := 0
              liked_by_cdsids := []
              disliked_by_cdsids := []
              last_liked_by := ""
              last_disliked_by := ""
              updated_by_cdsid := cdsid
              updated_datetime_utc := env.now }) := by
  constructor
  · intro es₂ key₂ index₂ doc₂ cdsid₂ name₂
    rw [update_summary_cache_reload_eq]
    simp [applyReload, Except.map]
  · have htr : pyTruthyStr (some k) = true := by simpa [pyTruthyStr] using hk
    refine ⟨es_write es index k
      { applyReload { old with ai_summary_cache := newSummary } with
          updated_by_cdsid := cdsid
          updated_datetime_utc := env.now }, ?_, ?_⟩
    · simp only [cache_ai_summaries, create_index_if_not_exists, hex, if_true, htr,
        Bool.not_true, Bool.false_eq_true, if_false, Option.getD,
        get_document_by_id, raise_error_if_index_not_exists, hold,
        update_summary_cache_reload_eq, bind, Except.bind, es_get_es_write,
        check_index_exists_es_write, applyReload]
    · rw [es_get_es_write]
      rfl

theorem C8_reload_reset_and_recache_witness :
    ∃ es' : ES,
      cache_ai_summaries envFix esFix (some "77") "topic" "user query" "NEW SUMMARY"
          "ai_summary_cache_dev" (some "Z") "Zed" (some ["EU"]) =
        Except.ok
          (AiSummaryCache.mk
            { docFix with
                ai_summary_cache := "NEW SUMMARY"
                total_likes := 0
                total_dislikes := 0
                liked_by_cdsids := []
                disliked_by_cdsids := []
                last_liked_by := ""
                last_disliked_by := ""
                updated_by_cdsid := some "Z"
                updated_datetime_utc := envFix.now }, es') ∧
      es_get es' "ai_summary_cache_dev" "77" =
        some
          { docFix with
              ai_summary_cache := "NEW SUMMARY"
              total_likes := 0
              total_dislikes := 0
              liked_by_cdsids := []
              disliked_by_cdsids := []
              last_liked_by := ""
              last_disliked_by := ""
              updated_by_cdsid := some "Z"
              updated_datetime_utc := envFix.now } :=
  (C8_reload_reset_and_recache envFix esFix "ai_summary_cache_dev" (some "Z") "Zed"
    "77" docFix "topic" "user query" "NEW SUMMARY" (some ["EU"])
    (by decide) (by decide) (by decide)).2

/-- C5 counterexample: hashtag extraction does NOT drop tokens that become
empty after stripping — the query consisting of the single token "#" yields
the singleton list containing the empty string, not the empty list the claim
requires. -/
theorem C5_counterexample_empty_retained :
    extract_hashtags "#" = [""] ∧ extract_hashtags "#" ≠ ([] : List String) := by
  decide

/-- C5 (amended): hashtag extraction splits the text on whitespace, keeps
only tokens starting with '#', and strips every character outside
[a-zA-Z0-9_] from each kept token, but does not drop tokens that strip to
the empty string; it is a pure function of the query, every character of
every output entry is in [a-zA-Z0-9_], empty input yields the empty list,
"blue #cruise feature" yields exactly ["cruise"], and "#" yields [""]. -/
theorem C5_hashtag_extraction_amended :
    (∀ q : String, extract_hashtags q =
      ((pySplit q).filter (fun w => pyStartsWith w "#")).map
        (fun w => keepWordChars (pyDrop1 w))) ∧
    (∀ q : String, ∀ s ∈ extract_hashtags q, ∀ c ∈ s.data, isWordChar c = true) ∧
    extract_hashtags "" = [] ∧
    extract_hashtags "blue #cruise feature" = ["cruise"] ∧
    extract_hashtags "#" = [""] := by
  refine ⟨?_, ?_, by decide, by decide, by decide⟩
  · intro q
    simp [extract_hashtags, List.map_map]
  · intro q s hs c hc
    simp only [extract_hashtags, List.mem_map] at hs
    obtain ⟨w, -, rfl⟩ := hs
    simp only [keepWordChars, String.data] at hc
    exact (List.mem_filter.mp hc).2

theorem C5_hashtag_extraction_amended_witness :
    "cruise" ∈ extract_hashtags "blue #cruise feature" ∧
    (∀ c ∈ "cruise".data, isWordChar c = true) :=
  ⟨by decide, C5_hashtag_extraction_amended.2.1 "blue #cruise feature" "cruise" (by decide)⟩

/-- A reference insights search request over a 10-document index. -/
def reqFix : SearchRequest :=
  { index := "insights_dev"
    cdsid := some "ABC"
    ai_summary_cache_id := none
    regions := none
    categories := []
    authors := []
    sorted_by := "relevance"
    logged_in_user_name := "Alice"
    query := "blue cruise"
    page_no := 1
    page_size := 24 }

/-- C3 counterexample: when the window check and the page-bound check both
fail, the code raises the 400 BadRequest first, so a request with
`from >= total_docs` does NOT always fail with NotFound: page 418 of size 24
against 10 documents has from = 10008 >= 10 yet fails with 400. -/
theorem C3_counterexample_window_first :
    (10 : Int) ≤ ((418 - 1) * 24 : Int) ∧
    get_es_query envFix { reqFix with page_no := 418 } 10 =
      Except.error (Err.insight 400
        "Requested range exceeds the maximum allowed. Please adjust the page size.") := by
  constructor
  · decide
  · rfl

/-- C3 (amended): get_es_query computes from = (page_no - 1) * page_size and,
in this order, fails with BadRequest 400 when from + page_size exceeds the
maximum result window 10000, then with NotFound 404 when from >= total_docs
(so NotFound is only reached when the window check passes), and otherwise
builds the query with result size min(page_size, total_docs - from); both
failures occur during query construction, before the index search oracle is
consulted (the returned error is the same for every search function).  In
particular page_size=24, page_no=1 against 10 documents gives from=0 and
size=10, while page_no=2, page_size=24 against 10 documents gives NotFound. -/
theorem C3_pagination_amended :
    (∀ (env : Env) (req : SearchRequest) (total_docs : Int),
        10000 < (req.page_no - 1) * req.page_size + req.page_size →
        get_es_query env req total_docs =
          Except.error (Err.insight 400
            "Requested range exceeds the maximum allowed. Please adjust the page size.")) ∧
    (∀ (env : Env) (req : SearchRequest) (total_docs : Int),
        (req.page_no - 1) * req.page_size + req.page_size ≤ 10000 →
        total_docs ≤ (req.page_no - 1) * req.page_size →
        get_es_query env req total_docs =
          Except.error (Err.insight 404 "No more documents to fetch")) ∧
    (∀ (env : Env) (req : SearchRequest) (total_docs : Int),
        (req.page_no - 1) * req.page_size + req.page_size ≤ 10000 →
        (req.page_no - 1) * req.page_size < total_docs →
        (get_es_query env req total_docs).map (fun q => (q.from_param, q.size)) =
          Except.ok ((req.page_no - 1) * req.page_size,
            min req.page_size (total_docs - (req.page_no - 1) * req.page_size))) ∧
    (∀ (σ : Type) (env : Env)
        (f : String → EsQueryT → Except EsError (List (Hit σ) × Nat)) (es : ES)
        (req : SearchRequest),
        pyStartsWith req.index ai_summary_cache_name = false →
        check_index_exists es req.index = true →
        0 < es_count es req.index →
        10000 < (req.page_no - 1) * req.page_size + req.page_size →
        elastic_search env f es req =
          Except.error (Err.insight 400
            "Requested range exceeds the maximum allowed. Please adjust the page size.")) ∧
    (get_es_query envFix reqFix 10).map (fun q => (q.from_param, q.size)) =
      Except.ok (0, 10) ∧
    get_es_query envFix { reqFix with page_no := 2 } 10 =
      Except.error (Err.insight 404 "No more documents to fetch") := by
  have h400 : ∀ (env : Env) (req : SearchRequest) (total_docs : Int),
      10000 < (req.page_no - 1) * req.page_size + req.page_size →
      get_es_query env req total_docs =
        Except.error (Err.insight 400
          "Requested range exceeds the maximum allowed. Please adjust the page size.") := by
    intro env req total_docs h
    unfold get_es_query
    rw [if_pos h]
  refine ⟨h400, ?_, ?_, ?_, ?_, ?_⟩
  · intro env req total_docs h1 h2
    unfold get_es_query
    rw [if_neg (by omega), if_pos h2]
  · intro env req total_docs h1 h2
    unfold get_es_query
    rw [if_neg (by omega), if_neg (by omega)]
    rfl
  · intro σ env f es req hpfx hex hcount hwin
    unfold elastic_search
    rw [raise_error_if_index_not_exists, hex]
    simp only [Bool.not_true, Bool.false_eq_true, if_false, bind, Except.bind, if_pos hcount,
      hpfx, h400 env req (Int.ofNat (es_count es req.index)) hwin]
  · rfl
  · rfl

theorem C3_pagination_amended_witness :
    get_es_query envFix { reqFix with page_no := 2 } 10 =
      Except.error (Err.insight 404 "No more documents to fetch") :=
  C3_pagination_amended.2.1 envFix { reqFix with page_no := 2 } 10 (by decide) (by decide)

/-- A reference ranked cache hit wrapping `docFix`. -/
def cacheHitFix : Hit CacheDoc :=
  { hitId := "77", score := 20, source := docFix, highlight := none }

/-- A reference environment whose cache-search oracle returns `cacheHitFix`. -/
def envCacheFix : Env :=
  { envFix with searchC := fun _ _ => Except.ok ([cacheHitFix], 1) }

/-- A reference implicit-lookup request against the summary-cache index with
no region filter. -/
def reqCacheFix : SearchRequest :=
  { reqFix with index := "ai_summary_cache_dev", regions := none }

/-- C4 (code bug): during an implicit summary-cache lookup with no region
filter, a positive pre-cutoff total whose candidates are all region-scoped
leaves the no-region restriction with zero candidates, and the subscript
`response['results'][0]` raises IndexError, which the generic handler wraps
and SURFACES as AppException(500, ...) instead of falling through to
regeneration: with the cache index present, one candidate scoped to
regions=["NA"], and no region filter requested, get_ai_summary_from_cache
returns the 500 error. -/
theorem C4_cache_lookup_surfaces_500 :
    check_index_exists esFix reqCacheFix.index = true ∧
    regionsNoneOrEmpty reqCacheFix.regions = true ∧
    docFix.regions ≠ some ([] : List String) ∧
    get_ai_summary_from_cache envCacheFix esFix "original query" reqCacheFix [] =
      Except.error (Err.app 500 "list index out of range") := by
  exact ⟨rfl, rfl, by decide, rfl⟩

/-- The hit repackaging of get_documents_from_search_insights copies each
transported field and hence preserves the hit list. -/
theorem repackage_map_id {σ : Type} (hits : List (Hit σ)) :
    hits.map (fun hit =>
      { hitId := hit.hitId, score := hit.score, source := hit.source,
        highlight := hit.highlight : Hit σ }) = hits := by
  induction hits with
  | nil => rfl
  | cons h t ih => simp [ih]

/-- Evaluation of elastic_search on an existing, non-empty summary-cache
index whose search oracle answers. -/
theorem elastic_search_cache_eval {σ : Type} (env : Env)
    (f : String → EsQueryT → Except EsError (List (Hit σ) × Nat)) (es : ES)
    (req : SearchRequest) (hits : List (Hit σ)) (total : Nat)
    (hex : check_index_exists es req.index = true)
    (hcount : 0 < es_count es req.index)
    (hpfx : pyStartsWith req.index ai_summary_cache_name = true)
    (hsearch : f req.index (EsQueryT.cache (get_ai_summary_cache_query env req)) =
      Except.ok (hits, total)) :
    elastic_search env f es req = Except.ok (some (hits, total)) := by
  unfold elastic_search
  rw [raise_error_if_index_not_exists, hex]
  simp only [Bool.not_true, Bool.false_eq_true, if_false, bind, Except.bind,
    if_pos hcount, hpfx, if_true, hsearch]

/-- Evaluation of get_documents_from_search_insights under the same
conditions. -/
theorem get_documents_cache_eval {σ : Type} (env : Env)
    (f : String → EsQueryT → Except EsError (List (Hit σ) × Nat)) (es : ES)
    (req : SearchRequest) (hits : List (Hit σ)) (total : Nat)
    (hex : check_index_exists es req.index = true)
    (hcount : 0 < es_count es req.index)
    (hpfx : pyStartsWith req.index ai_summary_cache_name = true)
    (hsearch : f req.index (EsQueryT.cache (get_ai_summary_cache_query env req)) =
      Except.ok (hits, total)) :
    get_documents_from_search_insights env f es req = Except.ok (some (hits, total)) := by
  unfold get_documents_from_search_insights
  rw [elastic_search_cache_eval env f es req hits total hex hcount hpfx hsearch]
  simp only [bind, Except.bind, repackage_map_id]

/-- C9: during cache-candidate evaluation (cache index exists, lookup
succeeded with a positive total, region-filtered request so the candidate
list is used as returned), the candidate's cached summary is reused exactly
when the query-equivalence answer is non-empty and contains the standalone
word "yes" case-insensitively; any other answer — including exactly "no",
"unsure", or the empty answer — takes the regeneration path instead
(summarize_and_cache wrapped in the try/except recovery), and "no", "unsure"
and "" all fail the yes-test while "Yes" passes it. -/
theorem C9_reuse_iff_standalone_yes (env : Env) (es : ES) (original_query : String)
    (req : SearchRequest) (sr : List (Hit InsightSource))
    (chit : Hit CacheDoc) (rest : List (Hit CacheDoc)) (total : Nat)
    (hex : check_index_exists es req.index = true)
    (hcount : 0 < es_count es req.index)
    (hpfx : pyStartsWith req.index ai_summary_cache_name = true)
    (hsearch : env.searchC req.index (EsQueryT.cache (get_ai_summary_cache_query env req)) =
      Except.ok (chit :: rest, total))
    (htotal : 0 < total)
    (hregions : regionsNoneOrEmpty req.regions = false) :
    get_ai_summary_from_cache env es original_query req sr =
      (if env.analyse_user_queries original_query chit.source.user_query ≠ "" ∧
          hasYesWord (pyStrip (env.analyse_user_queries original_query chit.source.user_query)) then
        Except.ok (AiSummaryCache.mk chit.source, es)
      else
        cacheTryCatch (fun _ => summarize_and_cache env es original_query sr req)
          (summarize_and_cache env es original_query sr req)) ∧
    hasYesWord "no" = false ∧ hasYesWord "unsure" = false ∧ hasYesWord "" = false ∧
    hasYesWord "Yes" = true := by
  refine ⟨?_, by decide, by decide, by decide, by decide⟩
  unfold get_ai_summary_from_cache
  rw [hex]
  simp only [Bool.not_true, Bool.false_eq_true, if_false]
  rw [get_documents_cache_eval env env.searchC es req (chit :: rest) total hex hcount hpfx hsearch]
  simp only [bind, Except.bind, if_pos htotal, hregions, Bool.false_eq_true, if_false]
  by_cases hyes : env.analyse_user_queries original_query chit.source.user_query ≠ "" ∧
      hasYesWord (pyStrip (env.analyse_user_queries original_query chit.source.user_query))
  · rw [if_pos hyes, if_pos hyes]
    rfl
  · rw [if_neg hyes, if_neg hyes]

/-- A reference cache-lookup request carrying a region filter. -/
def reqCacheRegFix : SearchRequest :=
  { reqFix with index := "ai_summary_cache_dev", regions := some ["NA"] }

/-- A reference environment whose query-equivalence oracle affirms. -/
def envYesFix : Env :=
  { envFix with
      searchC := fun _ _ => Except.ok ([cacheHitFix], 1)
      analyse_user_queries := fun _ _ => "Yes, they are equivalent." }

theorem C9_reuse_iff_standalone_yes_witness :
    get_ai_summary_from_cache envYesFix esFix "original query" reqCacheRegFix [] =
      (if envYesFix.analyse_user_queries "original query" cacheHitFix.source.user_query ≠ "" ∧
          hasYesWord (pyStrip (envYesFix.analyse_user_queries "original query"
            cacheHitFix.source.user_query)) then
        Except.ok (AiSummaryCache.mk cacheHitFix.source, esFix)
      else
        cacheTryCatch
          (fun _ => summarize_and_cache envYesFix esFix "original query" [] reqCacheRegFix)
          (summarize_and_cache envYesFix esFix "original query" [] reqCacheRegFix)) ∧
    hasYesWord "no" = false ∧ hasYesWord "unsure" = false ∧ hasYesWord "" = false ∧
    hasYesWord "Yes" = true :=
  C9_reuse_iff_standalone_yes envYesFix esFix "original query" reqCacheRegFix []
    cacheHitFix [] 1 rfl (by decide) (by decide) rfl (by decide) rfl

/-- With a search oracle that always answers (hits, total), a non-empty
search response of get_documents_from_search_insights carries exactly those
hits and that total. -/
theorem get_docs_constant {σ : Type} (env : Env)
    (f : String → EsQueryT → Except EsError (List (Hit σ) × Nat)) (es : ES)
    (req : SearchRequest) (hits : List (Hit σ)) (total : Nat)
    (res : List (Hit σ)) (t : Nat)
    (hsearch : ∀ i q, f i q = Except.ok (hits, total))
    (h : get_documents_from_search_insights env f es req = Except.ok (some (res, t))) :
    res = hits ∧ t = total := by
  unfold get_documents_from_search_insights elastic_search raise_error_if_index_not_exists at h
  by_cases hex : check_index_exists es req.index
  · simp only [hex, Bool.not_true, Bool.false_eq_true, if_false, bind, Except.bind] at h
    by_cases hcount : 0 < es_count es req.index
    · simp only [if_pos hcount] at h
      by_cases hpfx : pyStartsWith req.index ai_summary_cache_name
      · simp only [hpfx, if_true, hsearch, repackage_map_id] at h
        simp at h
        exact ⟨h.1.symm, h.2.symm⟩
      · cases hq : get_es_query env req (Int.ofNat (es_count es req.index)) with
        | error e =>
            rw [if_neg hpfx] at h
            simp only [hq] at h
            simp at h
        | ok q =>
            rw [if_neg hpfx] at h
            simp only [hq, hsearch, repackage_map_id] at h
            simp at h
            exact ⟨h.1.symm, h.2.symm⟩
    · simp only [if_neg hcount] at h
      simp at h
  · have hexF : check_index_exists es req.index = false := by simpa using hex
    rw [hexF] at h
    simp only [Bool.not_false, if_true, bind, Except.bind] at h
    exact absurd h (by simp)


/-- Membership in the cutoff filter gives the score bound. -/
theorem mem_filter_score {r : Hit InsightSource} {l : List (Hit InsightSource)}
    (hr : r ∈ l.filter (fun r => decide ((14 : Rat) ≤ r.score))) : (14 : Rat) ≤ r.score := by
  simpa using (List.mem_filter.mp hr).2


/-- C2: every successful search_insights_v2 response lists exactly the hits
with relevance score >= 14 (no lower-scored hit appears), while
total_records equals the pre-cutoff total reported by the index search, not
the post-filter list length. -/
theorem C2_score_cutoff_and_pre_cutoff_total (env : Env) (es : ES) (req : SearchRequest)
    (hits : List (Hit InsightSource)) (total : Nat)
    (hsearch : ∀ i q, env.searchI i q = Except.ok (hits, total))
    (out : ResponseOut) (es' : ES)
    (h : search_insights_v2 env es req = Except.ok (out, es')) :
    out.search_results.insights = hits.filter (fun r => decide ((14 : Rat) ≤ r.score)) ∧
    out.search_results.total_records = total ∧
    (∀ r ∈ out.search_results.insights, (14 : Rat) ≤ r.score) := by
  simp only [search_insights_v2] at h
  generalize hr1 : (if env.extract_keywords req.query ≠ "" then
      { req with query := env.extract_keywords req.query } else req) = req1 at h
  cases hresp : get_documents_from_search_insights env env.searchI es req1 with
  | error e =>
      rw [hresp] at h
      simp [bind, Except.bind] at h
  | ok o =>
      rw [hresp] at h
      cases o with
      | none => simp [bind, Except.bind] at h
      | some p =>
          obtain ⟨res, t⟩ := p
          obtain ⟨h1, h2⟩ := get_docs_constant env env.searchI es req1 hits total res t
            hsearch hresp
          subst h1 h2
          simp only [bind, Except.bind] at h
          repeat' split at h
          all_goals try exact Except.noConfusion h
          all_goals
            simp only [Except.ok.injEq, Prod.mk.injEq] at h
            obtain ⟨hout, -⟩ := h
            subst hout
            exact ⟨rfl, rfl, fun r hr => mem_filter_score hr⟩

/-- A reference insight hit with a given id and score. -/
def insightHitFix (i : String) (s : Rat) : Hit InsightSource :=
  { hitId := i, score := s,
    source := { title := some i, description := none, authors := none, regions := some [] },
    highlight := none }

/-- The rational 13.9, written with explicit numerator and denominator so
concrete evaluation stays within kernel-reducible operations. -/
def score139 : Rat := { num := 139, den := 10, den_nz := by decide, reduced := by norm_num }

/-- The example hit list with scores 20, 15, 14, 13.9, 2. -/
def hitsFix : List (Hit InsightSource) :=
  [insightHitFix "a" 20, insightHitFix "b" 15, insightHitFix "c" 14,
   insightHitFix "d" score139, insightHitFix "e" 2]

/-- A reference environment whose insights-search oracle returns `hitsFix`
with pre-cutoff total 5. -/
def envSearchFix : Env :=
  { envFix with searchI := fun _ _ => Except.ok (hitsFix, 5) }

/-- A reference store whose insights index holds 5 documents. -/
def esInsightsFix : ES := ES.mk [("insights_dev", ESIndex.mk [] 5)]

/-- A page-2 request (no summary machinery on pages after the first). -/
def reqPage2Fix : SearchRequest := { reqFix with page_no := 2, page_size := 2 }

/-- The response search_insights_v2 produces in the reference scenario. -/
def outFixC2 : ResponseOut :=
  { summary := SummaryVal.emptyDict
    search_results :=
      SearchResultsOut.mk (hitsFix.filter (fun r => decide ((14 : Rat) ≤ r.score))) 5 }

theorem C2_score_cutoff_and_pre_cutoff_total_witness :
    (search_insights_v2 envSearchFix esInsightsFix reqPage2Fix =
      Except.ok (outFixC2, esInsightsFix)) ∧
    hitsFix.length = 5 ∧
    outFixC2.search_results.insights.length = 3 ∧
    (outFixC2.search_results.insights = hitsFix.filter (fun r => decide ((14 : Rat) ≤ r.score)) ∧
     outFixC2.search_results.total_records = 5 ∧
     (∀ r ∈ outFixC2.search_results.insights, (14 : Rat) ≤ r.score)) :=
  ⟨rfl, by decide, by decide,
   C2_score_cutoff_and_pre_cutoff_total envSearchFix esInsightsFix reqPage2Fix hitsFix 5
     (fun _ _ => rfl) outFixC2 esInsightsFix rfl⟩

/-- elastic_search on an existing index holding zero documents returns the
empty response (Python empty dict). -/
theorem elastic_search_none {σ : Type} (env : Env)
    (f : String → EsQueryT → Except EsError (List (Hit σ) × Nat)) (es : ES)
    (req : SearchRequest) (hex : check_index_exists es req.index = true)
    (hcount : es_count es req.index = 0) :
    elastic_search env f es req = Except.ok none := by
  unfold elastic_search raise_error_if_index_not_exists
  rw [hex, hcount]
  simp [bind, Except.bind]

theorem get_documents_none {σ : Type} (env : Env)
    (f : String → EsQueryT → Except EsError (List (Hit σ) × Nat)) (es : ES)
    (req : SearchRequest) (hex : check_index_exists es req.index = true)
    (hcount : es_count es req.index = 0) :
    get_documents_from_search_insights env f es req = Except.ok none := by
  unfold get_documents_from_search_insights
  rw [elastic_search_none env f es req hex hcount]
  simp [bind, Except.bind]

theorem get_es_query_page1_ok (env : Env) (req : SearchRequest) (total_docs : Int)
    (hpage : req.page_no = 1) (hsize : req.page_size ≤ 10000) (hpos : 0 < total_docs) :
    ∃ q : EsQuery, get_es_query env req total_docs = Except.ok q := by
  unfold get_es_query
  rw [if_neg (by rw [hpage]; omega), if_neg (by rw [hpage]; omega)]
  exact ⟨_, rfl⟩

theorem elastic_search_insights_eval {σ : Type} (env : Env)
    (f : String → EsQueryT → Except EsError (List (Hit σ) × Nat)) (es : ES)
    (req : SearchRequest) (q : EsQuery) (hits : List (Hit σ)) (total : Nat)
    (hex : check_index_exists es req.index = true)
    (hcount : 0 < es_count es req.index)
    (hpfx : pyStartsWith req.index ai_summary_cache_name = false)
    (hq : get_es_query env req (Int.ofNat (es_count es req.index)) = Except.ok q)
    (hsearch : f req.index (EsQueryT.insights q) = Except.ok (hits, total)) :
    elastic_search env f es req = Except.ok (some (hits, total)) := by
  unfold elastic_search raise_error_if_index_not_exists
  rw [hex]
  simp only [Bool.not_true, Bool.false_eq_true, if_false, bind, Except.bind,
    if_pos hcount, hpfx, hq, hsearch]

theorem get_documents_insights_eval {σ : Type} (env : Env)
    (f : String → EsQueryT → Except EsError (List (Hit σ) × Nat)) (es : ES)
    (req : SearchRequest) (q : EsQuery) (hits : List (Hit σ)) (total : Nat)
    (hex : check_index_exists es req.index = true)
    (hcount : 0 < es_count es req.index)
    (hpfx : pyStartsWith req.index ai_summary_cache_name = false)
    (hq : get_es_query env req (Int.ofNat (es_count es req.index)) = Except.ok q)
    (hsearch : f req.index (EsQueryT.insights q) = Except.ok (hits, total)) :
    get_documents_from_search_insights env f es req = Except.ok (some (hits, total)) := by
  unfold get_documents_from_search_insights
  rw [elastic_search_insights_eval env f es req q hits total hex hcount hpfx hq hsearch]
  simp only [bind, Except.bind, repackage_map_id]

theorem cache_ai_summaries_mint (env : Env) (es : ES) (key : Option String)
    (topic user_query ai_summary index_name : String) (cdsid : Option String)
    (logged_in_user_name : String) (regions : Option (List String))
    (hex : check_index_exists es index_name = true)
    (hid : pyTruthyStr key = false) :
    cache_ai_summaries env es key topic user_query ai_summary index_name cdsid
        logged_in_user_name regions =
      Except.ok
        (AiSummaryCache.mk
          (new_ai_summary_cache_document env env.newKey topic user_query ai_summary
            cdsid regions),
         es_write es index_name (toString env.newKey)
           (new_ai_summary_cache_document env env.newKey topic user_query ai_summary
             cdsid regions)) := by
  unfold cache_ai_summaries create_index_if_not_exists
  rw [hex]
  simp only [if_true, hid, Bool.not_false, if_true, bind, Except.bind,
    get_document_by_id, raise_error_if_index_not_exists, check_index_exists_es_write,
    Bool.not_true, Bool.false_eq_true, if_false, es_get_es_write]

/-- Full evaluation of search_insights_v2 down the apology branch: index
exists and is non-empty, the search reports pre-cutoff total 0, page 1,
size within the window, no explicit cache id; the fixed apology is cached
as a fresh document under a minted key in the request's CURRENT index and
returned as the summary. -/
theorem apology_path_eval (env : Env) (es : ES) (req : SearchRequest) (hits : List (Hit InsightSource))
    (hsearch : ∀ i q, env.searchI i q = Except.ok (hits, 0))
    (hex : check_index_exists es req.index = true)
    (hcount : 0 < es_count es req.index)
    (hpfx : pyStartsWith req.index ai_summary_cache_name = false)
    (hpage : req.page_no = 1)
    (hsize : req.page_size ≤ 10000)
    (hid : pyTruthyStr req.ai_summary_cache_id = false) :
    search_insights_v2 env es req =
      Except.ok
        ({ summary := SummaryVal.doc (new_ai_summary_cache_document env env.newKey
             (if env.extract_keywords req.query ≠ "" then env.extract_keywords req.query
              else req.query)
             req.query apologySummary req.cdsid req.regions)
           search_results := SearchResultsOut.mk
             (hits.filter (fun r => decide ((14 : Rat) ≤ r.score))) 0 },
         es_write es req.index (toString env.newKey)
           (new_ai_summary_cache_document env env.newKey
             (if env.extract_keywords req.query ≠ "" then env.extract_keywords req.query
              else req.query)
             req.query apologySummary req.cdsid req.regions)) := by
  by_cases hk : env.extract_keywords req.query ≠ ""
  · simp only [search_insights_v2, if_pos hk]
    obtain ⟨q, hq⟩ := get_es_query_page1_ok env
      { req with query := env.extract_keywords req.query }
      (Int.ofNat (es_count es req.index)) hpage hsize (by simpa using hcount)
    rw [get_documents_insights_eval env env.searchI es
      { req with query := env.extract_keywords req.query } q hits 0 hex hcount hpfx hq
      (hsearch _ _)]
    simp only [bind, Except.bind]
    rw [cache_ai_summaries_mint env es req.ai_summary_cache_id
      (env.extract_keywords req.query) req.query apologySummary req.index req.cdsid
      req.logged_in_user_name req.regions hex hid]
    simp [hpage, hk]
  · simp only [search_insights_v2, if_neg hk]
    obtain ⟨q, hq⟩ := get_es_query_page1_ok env req
      (Int.ofNat (es_count es req.index)) hpage hsize (by simpa using hcount)
    rw [get_documents_insights_eval env env.searchI es req q hits 0 hex hcount hpfx hq
      (hsearch _ _)]
    simp only [bind, Except.bind]
    rw [cache_ai_summaries_mint env es req.ai_summary_cache_id
      req.query req.query apologySummary req.index req.cdsid
      req.logged_in_user_name req.regions hex hid]
    simp [hpage, hk]

/-- C1 (amended): for every page-1 search against an existing non-empty
index whose query yields PRE-cutoff total 0 (hence a non-empty search
response with no hits) and no explicit cache id, search_insights_v2 returns
the fixed apology summary document (zeroed reactions) with
total_records = 0, without invoking the summarization collaborator — the
result is one fixed value for every summarize oracle; whereas a search
against an existing index holding 0 documents does NOT produce the apology:
it fails with the KeyError on response['results']. -/
theorem C1_apology_pre_cutoff_zero_and_empty_index (env : Env) (es : ES) (req : SearchRequest)
    (hits : List (Hit InsightSource))
    (hsearch : ∀ i q, env.searchI i q = Except.ok (hits, 0))
    (hex : check_index_exists es req.index = true)
    (hcount : 0 < es_count es req.index)
    (hpfx : pyStartsWith req.index ai_summary_cache_name = false)
    (hpage : req.page_no = 1)
    (hsize : req.page_size ≤ 10000)
    (hid : pyTruthyStr req.ai_summary_cache_id = false) :
    (∃ (d : CacheDoc) (es₁ : ES),
      d.ai_summary_cache = apologySummary ∧ d.total_likes = 0 ∧ d.total_dislikes = 0 ∧
      d.liked_by_cdsids = [] ∧ d.disliked_by_cdsids = [] ∧
      ∀ f : String → List SummDoc → Except String String,
        search_insights_v2 { env with summarize := f } es req =
          Except.ok
            ({ summary := SummaryVal.doc d
               search_results := SearchResultsOut.mk
                 (hits.filter (fun r => decide ((14 : Rat) ≤ r.score))) 0 }, es₁)) ∧
    (∀ (es₂ : ES) (req₂ : SearchRequest),
      check_index_exists es₂ req₂.index = true → es_count es₂ req₂.index = 0 →
      search_insights_v2 env es₂ req₂ = Except.error (Err.keyError "results")) := by
  constructor
  · refine ⟨new_ai_summary_cache_document env env.newKey
        (if env.extract_keywords req.query ≠ "" then env.extract_keywords req.query
         else req.query) req.query apologySummary req.cdsid req.regions,
      es_write es req.index (toString env.newKey)
        (new_ai_summary_cache_document env env.newKey
          (if env.extract_keywords req.query ≠ "" then env.extract_keywords req.query
           else req.query) req.query apologySummary req.cdsid req.regions),
      rfl, rfl, rfl, rfl, rfl, ?_⟩
    intro f
    exact apology_path_eval { env with summarize := f } es req hits (fun i q => hsearch i q)
      hex hcount hpfx hpage hsize hid
  · intro es₂ req₂ hex2 hcount2
    simp only [search_insights_v2]
    by_cases hk : env.extract_keywords req₂.query ≠ ""
    · rw [if_pos hk]
      rw [get_documents_none env env.searchI es₂
        { req₂ with query := env.extract_keywords req₂.query } hex2 hcount2]
      simp [bind, Except.bind]
    · rw [if_neg hk]
      rw [get_documents_none env env.searchI es₂ req₂ hex2 hcount2]
      simp [bind, Except.bind]

/-- A reference store whose insights index exists and holds 0 documents. -/
def esEmptyFix : ES := ES.mk [("insights_dev", ESIndex.mk [] 0)]

/-- C1 counterexample: a page-1 search against an EXISTING index containing
0 documents does not produce the apology summary with no error, as the
claim states — the empty search response makes `response['results']` raise
KeyError, which propagates to the caller. -/
theorem C1_counterexample_empty_index_keyerror :
    check_index_exists esEmptyFix reqFix.index = true ∧
    es_count esEmptyFix reqFix.index = 0 ∧
    reqFix.page_no = 1 ∧
    search_insights_v2 envFix esEmptyFix reqFix = Except.error (Err.keyError "results") :=
  ⟨rfl, rfl, rfl, rfl⟩

theorem C1_apology_pre_cutoff_zero_and_empty_index_witness :
    ∃ (d : CacheDoc) (es₁ : ES),
      d.ai_summary_cache = apologySummary ∧ d.total_likes = 0 ∧ d.total_dislikes = 0 ∧
      d.liked_by_cdsids = [] ∧ d.disliked_by_cdsids = [] ∧
      ∀ f : String → List SummDoc → Except String String,
        search_insights_v2 { envFix with summarize := f } esInsightsFix reqFix =
          Except.ok
            ({ summary := SummaryVal.doc d
               search_results := SearchResultsOut.mk
                 (([] : List (Hit InsightSource)).filter
                   (fun r => decide ((14 : Rat) ≤ r.score))) 0 }, es₁) :=
  (C1_apology_pre_cutoff_zero_and_empty_index envFix esInsightsFix reqFix []
    (fun _ _ => rfl) rfl (by decide) (by decide) rfl (by decide) rfl).1
